import Mathlib

/-!
Shallow embedding of `src/python_backend/app.py` (AI mock-interview backend).

The Python file exposes three pieces of logic that the verification below
is about:

* `evaluate_answer(question, user_answer)` — rejects trimmed answers shorter
  than 10 characters with score 0, otherwise vectorizes the answer and asks
  the model for a prediction; with `predict_proba` the score is
  `int(max_probability * 100)`, otherwise `int(prediction)` for numeric
  predictions and 50 for anything else; the score is clamped with
  `max(0, min(100, score))`; any exception inside the `try` block yields a
  fixed fallback dict with score 50.
* `generate_feedback(score, answer, question)` — threshold tables over the
  score and the answer's word count producing fixed strings.
* the Flask endpoint `evaluate_answer_endpoint` plus the two health routes.

Environment conventions of the embedding: the opaque vectorizer/model pair
is an `Inference` value describing what `model.predict` / `predict_proba`
return for the given request (or that some call raises); Python floats are
modelled as rationals; Python `int(·)` is truncation toward zero; Python
`max(xs)` on an empty sequence raises, hence `pyMax` returns `Option`.
-/

namespace AIMock

/-- Python `s.strip()` modelled on the character list of the string:
whitespace is dropped from both ends. -/
def pyStrip (s : String) : List Char :=
  ((s.data.dropWhile Char.isWhitespace).reverse.dropWhile Char.isWhitespace).reverse

/-- Python `len(s.strip())`. -/
def strippedLen (s : String) : Nat :=
  (pyStrip s).length

/-- Helper for Python `len(s.split())`: counts maximal runs of
non-whitespace characters; the flag records being inside a word. -/
def wordCountAux : List Char → Bool → Nat
  | [], _ => 0
  | c :: cs, inWord =>
    if c.isWhitespace then wordCountAux cs false
    else (if inWord then 0 else 1) + wordCountAux cs true

/-- Python `len(s.split())`: number of whitespace-separated words. -/
def wordCount (s : String) : Nat :=
  wordCountAux s.data false

/-- Python `int(q)` on a rational: truncation toward zero. -/
def pyTrunc (q : ℚ) : Int :=
  if q < 0 then -(Int.floor (-q)) else Int.floor q

/-- Running maximum, as Python `max` computes it over a nonempty sequence. -/
def pyMaxFrom (x : ℚ) : List ℚ → ℚ
  | [] => x
  | y :: ys => pyMaxFrom (if x < y then y else x) ys

/-- Python `max(xs)`: `none` on the empty list (where `max` raises). -/
def pyMax : List ℚ → Option ℚ
  | [] => none
  | x :: xs => some (pyMaxFrom x xs)

/-- The value `model.predict(answer_vector)[0]` as the code inspects it:
a Python `int`, a Python `float`, or some non-numeric object. -/
inductive PredValue where
  | pInt (n : Int)
  | pFloat (q : ℚ)
  | pOther
deriving DecidableEq

/-- Behaviour of the loaded vectorizer/model pair on one request:
either some call inside the `try` block raises, or the model exposes
`predict_proba` returning the given probability row, or it only exposes
`predict` returning the given value. -/
inductive Inference where
  | raises
  | proba (probs : List ℚ)
  | plain (pred : PredValue)
deriving DecidableEq

/-- The dict `evaluate_answer` returns. -/
structure EvalResult where
  score : Int
  feedback : String
  strengths : List String
  improvements : List String
deriving DecidableEq

/-- The dict returned when the trimmed answer has fewer than 10 characters
(app.py lines 97-103). -/
def tooShortResult : EvalResult where
  score := 0
  feedback := "Answer is too short. Please provide a more detailed response."
  strengths := []
  improvements := ["Provide more detailed explanations", "Add relevant examples",
    "Elaborate on key points"]

/-- The dict returned from the `except` branch (app.py lines 134-141). -/
def fallbackResult : EvalResult where
  score := 50
  feedback := "Unable to evaluate answer accurately. Please try again."
  strengths := ["Answer provided"]
  improvements := ["Ensure answer is clear and well-structured"]

/-- Overall feedback string for scores of 80 and above. -/
def fbExcellent : String :=
  "Excellent answer! You demonstrated strong knowledge and communication skills."

/-- Overall feedback string for scores in [60, 80). -/
def fbGood : String :=
  "Good answer with room for improvement. Consider adding more specific examples and details."

/-- Overall feedback string for scores in [40, 60). -/
def fbFair : String :=
  "Fair answer. Try to provide more comprehensive responses with better structure."

/-- Overall feedback string for scores below 40. -/
def fbNeeds : String :=
  "Needs improvement. Focus on understanding the question and providing more relevant details."

/-- Function `generate_feedback(score, answer, question)` (app.py lines 143-199):
strengths, improvements and the overall feedback are produced by threshold
comparisons on the score and the answer's word count; the question parameter
is never used. -/
def generate_feedback (score : Int) (answer question : String) :
    String × List String × List String :=
  let word_count := wordCount answer
  let strengths :=
    (if 80 ≤ score then
      ["Comprehensive and well-structured answer",
       "Demonstrates strong understanding",
       "Clear and articulate communication"]
     else if 60 ≤ score then
      ["Good understanding of the topic", "Relevant points covered"]
     else if 40 ≤ score then
      ["Basic understanding demonstrated"]
     else [])
    ++ (if 100 ≤ word_count then ["Detailed explanation provided"] else [])
  let improvements :=
    (if score < 80 then
      (if word_count < 50 then ["Provide more detailed explanations"] else [])
      ++ ["Include specific examples to support your points", "Elaborate on key concepts"]
     else [])
    ++ (if score < 60 then
         ["Address all aspects of the question", "Organize your thoughts more clearly"]
       else [])
    ++ (if score < 40 then
         ["Focus on understanding the core question", "Provide more relevant information"]
       else [])
  let feedback :=
    if 80 ≤ score then fbExcellent
    else if 60 ≤ score then fbGood
    else if 40 ≤ score then fbFair
    else fbNeeds
  (feedback, strengths, improvements)

/-- The raw (pre-clamp) score of the inference path, `none` when something
raises: with `predict_proba` it is `int(max(probabilities) * 100)`
(app.py lines 113-116), otherwise `int(prediction)` for numeric predictions
and 50 for non-numeric ones (line 119). -/
def rawScore : Inference → Option Int
  | .raises => none
  | .proba probs => (pyMax probs).map (fun c => pyTrunc (c * 100))
  | .plain pred =>
      some (match pred with
            | .pInt n => n
            | .pFloat q => pyTrunc q
            | .pOther => 50)

/-- Function `evaluate_answer(question, user_answer)` (app.py lines 84-141).
The guard is Python `not user_answer or len(user_answer.strip()) < 10`;
afterwards the raw score is clamped with `max(0, min(100, score))` and the
feedback strings are generated; `none` from the inference path is the
caught-exception case. -/
def evaluate_answer (inf : Inference) (question user_answer : String) : EvalResult :=
  if user_answer = "" ∨ strippedLen user_answer < 10 then
    tooShortResult
  else
    match rawScore inf with
    | none => fallbackResult
    | some s =>
      let score := max 0 (min 100 s)
      let fsi := generate_feedback score user_answer question
      { score := score, feedback := fsi.1, strengths := fsi.2.1, improvements := fsi.2.2 }

/-- Body of a parsed (truthy) JSON request dict, restricted to the two keys
the endpoint reads; a missing key makes `data.get(key, '')` return `''`. -/
structure ReqBody where
  question : Option String
  user_answer : Option String
deriving DecidableEq

/-- A JSON response of the evaluate endpoint together with its HTTP status;
`error` is the `error` key present only in the failure responses. -/
structure HttpResponse where
  status : Nat
  error : Option String
  score : Int
  feedback : String
  strengths : List String
  improvements : List String
deriving DecidableEq

/-- The 500 response sent when `model is None or vectorizer is None`
(app.py lines 236-243). -/
def modelNotLoadedResponse : HttpResponse where
  status := 500
  error := some "Model not loaded. Please restart the server."
  score := 0
  feedback := "System error. Please try again later."
  strengths := []
  improvements := []

/-- The 400 response sent when the request body is missing or falsy
(app.py lines 248-255). -/
def invalidJsonResponse : HttpResponse where
  status := 400
  error := some "Invalid request. Please provide JSON data."
  score := 0
  feedback := "Invalid request format."
  strengths := []
  improvements := []

/-- The 400 response sent when `user_answer` is missing or empty
(app.py lines 261-268). -/
def missingAnswerResponse : HttpResponse where
  status := 400
  error := some "user_answer is required"
  score := 0
  feedback := "No answer provided."
  strengths := []
  improvements := ["Provide an answer to the question"]

/-- The 200 response wrapping an evaluation result. -/
def okResponse (r : EvalResult) : HttpResponse where
  status := 200
  error := none
  score := r.score
  feedback := r.feedback
  strengths := r.strengths
  improvements := r.improvements

/-- Function `evaluate_answer_endpoint` (app.py lines 215-273). `modelLoaded` and
`vectorizerLoaded` state that the respective global is not `None`; `data` is
the parsed JSON body, `none` when `request.get_json()` returns `None` or a
falsy (empty) dict. -/
def evaluate_answer_endpoint (modelLoaded vectorizerLoaded : Bool) (inf : Inference)
    (data : Option ReqBody) : HttpResponse :=
  if modelLoaded = false ∨ vectorizerLoaded = false then
    modelNotLoadedResponse
  else
    match data with
    | none => invalidJsonResponse
    | some d =>
      let user_answer := d.user_answer.getD ""
      if user_answer = "" then
        missingAnswerResponse
      else
        okResponse (evaluate_answer inf (d.question.getD "") user_answer)

/-- Response of `GET /` (app.py lines 205-213). -/
structure HomeResponse where
  status : String
  message : String
  model_loaded : Bool
  vectorizer_loaded : Bool
deriving DecidableEq

/-- Function `home()`: status JSON of `GET /`, flags taken from the globals. -/
def home (modelLoaded vectorizerLoaded : Bool) : HomeResponse where
  status := "running"
  message := "AI Mock Interview Backend API"
  model_loaded := modelLoaded
  vectorizer_loaded := vectorizerLoaded

/-- Response of `GET /health` (app.py lines 275-282). -/
structure HealthResponse where
  status : String
  model_loaded : Bool
  vectorizer_loaded : Bool
deriving DecidableEq

/-- Function `health_check()`: status JSON of `GET /health`, flags taken from the
globals. -/
def health_check (modelLoaded vectorizerLoaded : Bool) : HealthResponse where
  status := "healthy"
  model_loaded := modelLoaded
  vectorizer_loaded := vectorizerLoaded

/-- Which globals are set (not `None`) after startup. -/
structure Artifacts where
  model : Bool
  vectorizer : Bool
deriving DecidableEq

/-- Function `load_model_and_vectorizer()` (app.py lines 38-78), with the filesystem
and deserialization abstracted into two success flags: the vectorizer is
loaded first; if loading the model then fails, the whole `try` block is
aborted and the function returns `False` with the vectorizer global already
set. Returns the resulting globals and the boolean result. -/
def load_model_and_vectorizer (vectorizerLoadOk modelLoadOk : Bool) : Artifacts × Bool :=
  if vectorizerLoadOk then
    if modelLoadOk then ({ model := true, vectorizer := true }, true)
    else ({ model := false, vectorizer := true }, false)
  else
    ({ model := false, vectorizer := false }, false)

/-- The overall feedback component of `generate_feedback` is exactly the
four-way threshold table on the score. -/
theorem feedback_fst_eq (s : Int) (answer question : String) :
    (generate_feedback s answer question).1 =
      if 80 ≤ s then fbExcellent
      else if 60 ≤ s then fbGood
      else if 40 ≤ s then fbFair
      else fbNeeds := rfl

/-- The improvements component of `generate_feedback` as the appended
threshold blocks of the source. -/
theorem feedback_improvements_eq (s : Int) (answer question : String) :
    (generate_feedback s answer question).2.2 =
      (if s < 80 then
        (if wordCount answer < 50 then ["Provide more detailed explanations"] else [])
        ++ ["Include specific examples to support your points", "Elaborate on key concepts"]
       else [])
      ++ (if s < 60 then
           ["Address all aspects of the question", "Organize your thoughts more clearly"]
         else [])
      ++ (if s < 40 then
           ["Focus on understanding the core question", "Provide more relevant information"]
         else []) := rfl

/-- Claim C1: for every inference behaviour, question and answer, the
`score` field of the dict returned by `evaluate_answer` is an integer in
[0, 100]: the short-answer branch returns 0, the model branch clamps with
`max(0, min(100, score))`, and the exception branch returns 50. -/
theorem C1_score_in_range (inf : Inference) (question user_answer : String) :
    0 ≤ (evaluate_answer inf question user_answer).score ∧
    (evaluate_answer inf question user_answer).score ≤ 100 := by
  by_cases h : user_answer = "" ∨ strippedLen user_answer < 10
  · rw [evaluate_answer, if_pos h]
    exact ⟨le_refl 0, by norm_num [tooShortResult]⟩
  · rw [evaluate_answer, if_neg h]
    cases hr : rawScore inf with
    | none => exact ⟨by norm_num [fallbackResult], by norm_num [fallbackResult]⟩
    | some s => refine ⟨?_, ?_⟩ <;> simp

/-- Claim C2: whenever the trimmed answer has fewer than 10 characters
(the empty string included), `evaluate_answer` returns the fixed score-0
dict with the three fixed improvement suggestions, for every inference
behaviour — so the vectorizer and the model are never consulted. -/
theorem C2_short_answer_score_zero (inf : Inference) (question user_answer : String)
    (h : strippedLen user_answer < 10) :
    evaluate_answer inf question user_answer = tooShortResult := by
  rw [evaluate_answer, if_pos (Or.inr h)]

/-- Witness for C2 at a concrete short answer and a raising environment. -/
theorem C2_short_answer_score_zero_witness :
    strippedLen "short" < 10 ∧
    evaluate_answer .raises "Tell me about yourself" "short" = tooShortResult :=
  ⟨by decide, C2_short_answer_score_zero .raises "Tell me about yourself" "short" (by decide)⟩

/-- Claim C6: when an answer reaches the inference path and any call inside
the `try` block raises, `evaluate_answer` returns exactly the fallback dict
with score 50; the exception does not escape. -/
theorem C6_exception_returns_fallback (question user_answer : String)
    (h : ¬(user_answer = "" ∨ strippedLen user_answer < 10)) :
    evaluate_answer .raises question user_answer = fallbackResult := by
  rw [evaluate_answer, if_neg h]
  rfl

/-- Witness for C6 at a concrete long-enough answer. -/
theorem C6_exception_returns_fallback_witness :
    ¬("I have five years of backend experience" = "" ∨
      strippedLen "I have five years of backend experience" < 10) ∧
    evaluate_answer .raises "Tell me about yourself"
      "I have five years of backend experience" = fallbackResult :=
  ⟨by decide, C6_exception_returns_fallback "Tell me about yourself"
    "I have five years of backend experience" (by decide)⟩

/-- Claim C7: `generate_feedback` depends only on the score and the word
count of the answer: two calls with equal score and equal word count give
identical triples, whatever the two question strings are. -/
theorem C7_feedback_depends_only_on_score_and_word_count
    (s : Int) (a1 a2 q1 q2 : String) (h : wordCount a1 = wordCount a2) :
    generate_feedback s a1 q1 = generate_feedback s a2 q2 := by
  unfold generate_feedback
  rw [h]

/-- Witness for C7: two different answers of word count 2 and two different
questions give the same triple. -/
theorem C7_feedback_depends_only_on_score_and_word_count_witness :
    wordCount "alpha beta" = wordCount "gamma delta" ∧
    generate_feedback 70 "alpha beta" "first question" =
      generate_feedback 70 "gamma delta" "second question" :=
  ⟨by decide, C7_feedback_depends_only_on_score_and_word_count 70
    "alpha beta" "gamma delta" "first question" "second question" (by decide)⟩

/-- Claim C8: with both artifacts loaded and a parseable truthy JSON body
that lacks the `user_answer` key, the endpoint answers 400 with the
explanatory `user_answer is required` body, for every inference behaviour. -/
theorem C8_missing_user_answer_400 (inf : Inference) (d : ReqBody)
    (h : d.user_answer = none) :
    evaluate_answer_endpoint true true inf (some d) = missingAnswerResponse := by
  rw [evaluate_answer_endpoint, if_neg (by simp)]
  simp [h]

/-- Witness for C8 at a concrete body carrying only a question. -/
theorem C8_missing_user_answer_400_witness :
    (ReqBody.mk (some "Tell me about yourself") none).user_answer = none ∧
    evaluate_answer_endpoint true true .raises
      (some (ReqBody.mk (some "Tell me about yourself") none)) = missingAnswerResponse :=
  ⟨rfl, C8_missing_user_answer_400 .raises (ReqBody.mk (some "Tell me about yourself") none) rfl⟩

/-- Counterexample to claim C3 as stated: with probability row
[249/250, 1/250] the maximal class probability is 0.996, so rounding
0.996 × 100 gives 100, but the code computes `int(confidence * 100)`,
which truncates 99.6 to 99. -/
theorem C3_counterexample :
    (evaluate_answer (.proba [(249 : ℚ)/250, 1/250]) "Tell me about Python"
      "a sufficiently detailed answer").score = 99 ∧
    round (((249 : ℚ)/250) * 100) = 100 ∧
    ((evaluate_answer (.proba [(249 : ℚ)/250, 1/250]) "Tell me about Python"
      "a sufficiently detailed answer").score ≠ round (((249 : ℚ)/250) * 100)) := by
  have hmax : pyMax [(249 : ℚ)/250, 1/250] = some (249/250) := by
    simp only [pyMax, pyMaxFrom]
    norm_num
  have htr : pyTrunc ((249 : ℚ)/250 * 100) = 99 := by
    rw [pyTrunc]
    norm_num
  have hs : (evaluate_answer (.proba [(249 : ℚ)/250, 1/250]) "Tell me about Python"
      "a sufficiently detailed answer").score = 99 := by
    rw [evaluate_answer, if_neg (by decide)]
    simp only [rawScore, hmax, Option.map_some', htr]
    decide
  have hround : round (((249 : ℚ)/250) * 100) = 100 := by
    rw [round_eq]
    norm_num
  exact ⟨hs, hround, by rw [hs, hround]; decide⟩

/-- Claim C3 (amended): for answers reaching the inference path, when the
model exposes `predict_proba` the score is `int(max class probability × 100)`
— truncation toward zero, not rounding — and is then clamped to [0, 100]. -/
theorem C3_proba_score_truncates (probs : List ℚ) (c : ℚ) (question user_answer : String)
    (hs : ¬(user_answer = "" ∨ strippedLen user_answer < 10))
    (hm : pyMax probs = some c) :
    (evaluate_answer (.proba probs) question user_answer).score =
      max 0 (min 100 (pyTrunc (c * 100))) := by
  rw [evaluate_answer, if_neg hs]
  simp [rawScore, hm]

/-- Witness for C3 (amended) at probability row [1/2, 1/2]. -/
theorem C3_proba_score_truncates_witness :
    (¬("a perfectly reasonable answer" = "" ∨
        strippedLen "a perfectly reasonable answer" < 10) ∧
      pyMax [(1 : ℚ)/2, 1/2] = some (1/2)) ∧
    (evaluate_answer (.proba [(1 : ℚ)/2, 1/2]) "Tell me about Python"
      "a perfectly reasonable answer").score = max 0 (min 100 (pyTrunc ((1 : ℚ)/2 * 100))) :=
  ⟨⟨by decide, by simp [pyMax, pyMaxFrom]⟩,
   C3_proba_score_truncates [(1 : ℚ)/2, 1/2] (1/2) "Tell me about Python"
     "a perfectly reasonable answer" (by decide) (by simp [pyMax, pyMaxFrom])⟩

/-- Counterexample to claim C4 as stated: without `predict_proba`, a
numeric prediction of 75.7 does not become the score; the code computes
`int(prediction)` and the returned score is 75 ≠ 75.7. -/
theorem C4_counterexample :
    (evaluate_answer (.plain (.pFloat ((757 : ℚ)/10))) "Tell me about Python"
      "a sufficiently detailed answer").score = 75 ∧
    ¬(((evaluate_answer (.plain (.pFloat ((757 : ℚ)/10))) "Tell me about Python"
      "a sufficiently detailed answer").score : ℚ) = (757 : ℚ)/10) := by
  have htr : pyTrunc ((757 : ℚ)/10) = 75 := by
    rw [pyTrunc]
    norm_num
  have hs : (evaluate_answer (.plain (.pFloat ((757 : ℚ)/10))) "Tell me about Python"
      "a sufficiently detailed answer").score = 75 := by
    rw [evaluate_answer, if_neg (by decide)]
    simp [rawScore, htr]
  refine ⟨hs, ?_⟩
  rw [hs]
  norm_num

/-- Claim C4 (amended): for answers reaching the inference path, when the
model has no `predict_proba` the raw score is `int(prediction)` — the
prediction itself for an integer prediction, its truncation toward zero for
a float prediction — and 50 for a non-numeric prediction; the raw score is
then clamped to [0, 100]. -/
theorem C4_plain_prediction_scores (n : Int) (q : ℚ) (question user_answer : String)
    (hs : ¬(user_answer = "" ∨ strippedLen user_answer < 10)) :
    (evaluate_answer (.plain (.pInt n)) question user_answer).score = max 0 (min 100 n) ∧
    (evaluate_answer (.plain (.pFloat q)) question user_answer).score =
      max 0 (min 100 (pyTrunc q)) ∧
    (evaluate_answer (.plain .pOther) question user_answer).score = 50 := by
  refine ⟨?_, ?_, ?_⟩ <;> rw [evaluate_answer, if_neg hs] <;> simp [rawScore]

/-- Witness for C4 (amended) at integer prediction 85, float prediction
42.5 and a non-numeric prediction. -/
theorem C4_plain_prediction_scores_witness :
    ¬("a perfectly reasonable answer" = "" ∨
       strippedLen "a perfectly reasonable answer" < 10) ∧
    ((evaluate_answer (.plain (.pInt 85)) "Tell me about Python"
        "a perfectly reasonable answer").score = max 0 (min 100 85) ∧
     (evaluate_answer (.plain (.pFloat ((425 : ℚ)/10))) "Tell me about Python"
        "a perfectly reasonable answer").score = max 0 (min 100 (pyTrunc ((425 : ℚ)/10))) ∧
     (evaluate_answer (.plain .pOther) "Tell me about Python"
        "a perfectly reasonable answer").score = 50) :=
  ⟨by decide, C4_plain_prediction_scores 85 ((425 : ℚ)/10) "Tell me about Python"
    "a perfectly reasonable answer" (by decide)⟩

/-- Claim C5: the overall feedback string is selected by exact threshold
comparisons: Excellent iff score ≥ 80, Good iff 60 ≤ score < 80, Fair iff
40 ≤ score < 60, Needs-improvement iff score < 40; scores 79 and 80 fall in
different buckets. -/
theorem C5_feedback_buckets (s : Int) (answer question : String) :
    ((generate_feedback s answer question).1 = fbExcellent ↔ 80 ≤ s) ∧
    ((generate_feedback s answer question).1 = fbGood ↔ 60 ≤ s ∧ s < 80) ∧
    ((generate_feedback s answer question).1 = fbFair ↔ 40 ≤ s ∧ s < 60) ∧
    ((generate_feedback s answer question).1 = fbNeeds ↔ s < 40) ∧
    (generate_feedback 79 answer question).1 ≠ (generate_feedback 80 answer question).1 := by
  have hEG : fbExcellent ≠ fbGood := by decide
  have hEF : fbExcellent ≠ fbFair := by decide
  have hEN : fbExcellent ≠ fbNeeds := by decide
  have hGF : fbGood ≠ fbFair := by decide
  have hGN : fbGood ≠ fbNeeds := by decide
  have hFN : fbFair ≠ fbNeeds := by decide
  have h79 : (generate_feedback 79 answer question).1 = fbGood := by
    rw [feedback_fst_eq]; norm_num
  have h80 : (generate_feedback 80 answer question).1 = fbExcellent := by
    rw [feedback_fst_eq]; norm_num
  have hdiff : (generate_feedback 79 answer question).1 ≠
      (generate_feedback 80 answer question).1 := by
    rw [h79, h80]
    exact fun hc => hEG hc.symm
  rcases show 80 ≤ s ∨ (60 ≤ s ∧ s < 80) ∨ (40 ≤ s ∧ s < 60) ∨ s < 40 by omega
    with h | h | h | h
  · have e : (generate_feedback s answer question).1 = fbExcellent := by
      rw [feedback_fst_eq, if_pos h]
    refine ⟨?_, ?_, ?_, ?_, hdiff⟩ <;> rw [e]
    · simp [h]
    · simp [hEG]; omega
    · simp [hEF]; omega
    · simp [hEN]; omega
  · have e : (generate_feedback s answer question).1 = fbGood := by
      rw [feedback_fst_eq, if_neg (by omega), if_pos h.1]
    refine ⟨?_, ?_, ?_, ?_, hdiff⟩ <;> rw [e]
    · simp [hEG.symm]; omega
    · simp [h]
    · simp [hGF]; omega
    · simp [hGN]; omega
  · have e : (generate_feedback s answer question).1 = fbFair := by
      rw [feedback_fst_eq, if_neg (by omega), if_neg (by omega), if_pos h.1]
    refine ⟨?_, ?_, ?_, ?_, hdiff⟩ <;> rw [e]
    · simp [hEF.symm]; omega
    · simp [hGF.symm]; omega
    · simp [h]
    · simp [hFN]; omega
  · have e : (generate_feedback s answer question).1 = fbNeeds := by
      rw [feedback_fst_eq, if_neg (by omega), if_neg (by omega), if_neg (by omega)]
    refine ⟨?_, ?_, ?_, ?_, hdiff⟩ <;> rw [e]
    · simp [hEN.symm]; omega
    · simp [hGN.symm]; omega
    · simp [hFN.symm]; omega
    · simp [h]

/-- Claim C9 (amended): when an artifact global is `None`, every request to
the evaluate endpoint gets the fixed 500 response, whatever the body is —
so no request-body validation happens first — and the two health routes
report `model_loaded` and `vectorizer_loaded` equal to the actual loaded
state of each global, at least one of which is false. -/
theorem C9_unloaded_500_and_health_flags (m v : Bool) (inf : Inference)
    (data : Option ReqBody) (h : m = false ∨ v = false) :
    evaluate_answer_endpoint m v inf data = modelNotLoadedResponse ∧
    modelNotLoadedResponse.status = 500 ∧
    (health_check m v).model_loaded = m ∧
    (health_check m v).vectorizer_loaded = v ∧
    (home m v).model_loaded = m ∧
    (home m v).vectorizer_loaded = v ∧
    ((health_check m v).model_loaded = false ∨
     (health_check m v).vectorizer_loaded = false) := by
  refine ⟨by rw [evaluate_answer_endpoint.eq_def, if_pos h], rfl, rfl, rfl, rfl, rfl, ?_⟩
  simpa [health_check] using h

/-- Witness for C9 (amended) with only the model missing and a request that
even lacks a body. -/
theorem C9_unloaded_500_and_health_flags_witness :
    ((false = false ∨ true = false) ∧
      evaluate_answer_endpoint false true .raises none = modelNotLoadedResponse) ∧
    (health_check false true).vectorizer_loaded = true :=
  ⟨⟨Or.inl rfl,
    (C9_unloaded_500_and_health_flags false true .raises none (Or.inl rfl)).1⟩, rfl⟩

/-- Counterexample to claim C9 as stated: if the vectorizer loads but the
model artifact does not, startup fails (`load_model_and_vectorizer` returns
`False`) and the model global is `None`, yet the health routes report
`vectorizer_loaded` as true, not false. -/
theorem C9_counterexample :
    ((load_model_and_vectorizer true false).1.model = false ∨
     (load_model_and_vectorizer true false).1.vectorizer = false) ∧
    (load_model_and_vectorizer true false).2 = false ∧
    ¬((health_check (load_model_and_vectorizer true false).1.model
        (load_model_and_vectorizer true false).1.vectorizer).vectorizer_loaded = false) := by
  decide

/-- Claim C10: the improvements list of `generate_feedback` is empty exactly
when the score is at least 80; every score below 80 appends at least one
improvement, and the Excellent bucket appends none. -/
theorem C10_improvements_empty_iff (s : Int) (answer question : String) :
    (generate_feedback s answer question).2.2 = [] ↔ 80 ≤ s := by
  rw [feedback_improvements_eq]
  by_cases h : 80 ≤ s
  · simp [h, show ¬(s < 80) by omega, show ¬(s < 60) by omega, show ¬(s < 40) by omega]
  · simp [h, show s < 80 by omega]

end AIMock
